import Mathlib

/-!
Verification of the multi-strategy content-fetch and result-normalization
layer of `app.py` (a Streamlit web-scraping demo).

The external collaborators (HTTP client, headless browser, HTML parser,
crawl framework, JSON codec, language model) are modelled as abstract
outcome types / oracles; the repository's own logic (branching, prefix
classification, truncation, dict construction, error conversion) is
embedded faithfully from `src/app.py`.
-/

set_option autoImplicit false

namespace App

/-- Outcome of the direct `requests.get(url, ...)` call inside
`get_page_content` (app.py lines 28-31).  `raise_for_status` turns an
HTTP error status into `requests.exceptions.HTTPError`, modelled by
`httpError status msg` where `msg` is the Python `str(e)`; any other
exception (timeout, DNS failure, connection refused) is `otherError msg`. -/
inductive HttpOutcome where
  | success (body : String)
  | httpError (status : Nat) (msg : String)
  | otherError (msg : String)
deriving Repr, DecidableEq

/-- Outcome of the headless-browser navigation inside `selenium_fetch`
(app.py lines 46-52): either the page source, or the message of the
exception raised while launching/navigating. -/
inductive SeleniumOutcome where
  | success (pageSource : String)
  | failure (msg : String)
deriving Repr, DecidableEq

/-- Embedding of `selenium_fetch` (app.py lines 40-55): returns `driver.page_source`
on success and the string `"Selenium Error: " + str(e)` on any
exception.  The `finally: driver.quit()` resource release has no
effect on the returned value. -/
def selenium_fetch (sel : SeleniumOutcome) : String :=
  match sel with
  | .success s => s
  | .failure m => "Selenium Error: " ++ m

/-- Value returned by `get_page_content`, instrumented with the number
of times the `selenium_fetch` fallback was invoked during the call
(needed to state the fallback-exactly-once property). -/
structure Fetch where
  content : String
  seleniumCalls : Nat
deriving Repr, DecidableEq

/-- Embedding of `get_page_content` (app.py lines 19-38): direct GET; on success
return `response.text`; on `HTTPError` with status 403 fall back to
`selenium_fetch` (exactly one invocation) and return its value; on any
other `HTTPError` or any other exception return `"Error: " + str(e)`.
The function always returns a string — no exception escapes. -/
def get_page_content (http : HttpOutcome) (sel : SeleniumOutcome) : Fetch :=
  match http with
  | .success body => ⟨body, 0⟩
  | .httpError status msg =>
      if status = 403 then ⟨selenium_fetch sel, 1⟩
      else ⟨"Error: " ++ msg, 0⟩
  | .otherError msg => ⟨"Error: " ++ msg, 0⟩

/-- Python `s.startswith(pre)`: `pre` is a prefix of the code points of
`s`. -/
def pyStartsWith (s pre : String) : Bool :=
  pre.data.isPrefixOf s.data

/-- The error classification used by the code itself (app.py line 73):
a fetch result string is treated as an error exactly when it begins
with `"Error:"` or `"Selenium Error:"`. -/
def isFetchError (s : String) : Bool :=
  pyStartsWith s "Error:" || pyStartsWith s "Selenium Error:"

/-- The exception message of a failed fetch, derived from the failure
taxonomy of the spec (section 7): a non-403 HTTP error or other network
exception fails with its own message; a 403 whose selenium fallback also
fails fails with the browser exception message; a success, or a 403
whose fallback succeeds, is not a failure. -/
def fetchFailureMsg (http : HttpOutcome) (sel : SeleniumOutcome) : Option String :=
  match http with
  | .success _ => none
  | .httpError status msg =>
      if status = 403 then
        match sel with
        | .success _ => none
        | .failure em => some em
      else some msg
  | .otherError msg => some msg

/-- Python slice `s[:n]`: the first `n` code points of `s`. -/
def pySlice (s : String) (n : Nat) : String := ⟨s.data.take n⟩

/-- Python `s.strip()` (also the `strip=True` of `get_text` and the
`.strip()` on heading text): remove leading and trailing whitespace. -/
def pyStrip (s : String) : String :=
  ⟨((s.data.dropWhile Char.isWhitespace).reverse.dropWhile Char.isWhitespace).reverse⟩

/-- Observable behaviour of `generate_ai_questions`: either the skip
message returned without touching the model, or an invocation of the
language-model chain on the (truncated) content. -/
inductive AdvisoryOut where
  | skipped (msg : String)
  | invoked (promptContent : String)
deriving Repr, DecidableEq

/-- Embedding of `generate_ai_questions` (app.py lines 57-67): if the content starts
with `"Error:"` return the skip string; otherwise invoke the LLM chain
on `content[:3000]`.  Note the guard checks only the `"Error:"` prefix,
not `"Selenium Error:"`. -/
def generate_ai_questions (content : String) : AdvisoryOut :=
  if pyStartsWith content "Error:" then
    .skipped ("Could not generate questions due to: " ++ content)
  else
    .invoked (pySlice content 3000)

/-- One heading record produced by `bs4_scraper` (app.py lines 82-86):
stripped text, tag name, and the hrefs of up to 3 `<a href>` elements
following the heading in document order. -/
structure HeaderRec where
  text : String
  tag : String
  links : List String
deriving Repr, DecidableEq

/-- The Python dict returned by the scrapers, modelled as a record of
optional fields: a key present in the dict is a `some` field.
`bs4_scraper` populates `title`/`headers`/`all_links`/`text`,
`selenium_scraper` populates `title`/`text`/`scripts`, `scrapy_scraper`
populates `stats`, and every error path populates only `error`. -/
structure ResultDict where
  error : Option String := none
  title : Option String := none
  headers : Option (List HeaderRec) := none
  all_links : Option (List String) := none
  text : Option String := none
  scripts : Option Nat := none
  stats : Option (List (String × String)) := none
deriving Repr, DecidableEq

/-- Whether any payload (non-error) field of the dict is populated. -/
def hasPayload (r : ResultDict) : Bool :=
  r.title.isSome || r.headers.isSome || r.all_links.isSome ||
  r.text.isSome || r.scripts.isSome || r.stats.isSome

/-- The shared result invariant (spec section 3): exactly one of the
error field or the payload fields is populated. -/
def exclusiveResult (r : ResultDict) : Prop :=
  (r.error.isSome = true ∧ hasPayload r = false) ∨
  (r.error = none ∧ hasPayload r = true)

/-- An element of the parsed document, in document order, as seen by the
BeautifulSoup queries of `bs4_scraper`: a level-1/2/3 heading with its
text, an anchor with an optional `href` attribute and its text, or a
plain text fragment. -/
inductive Elem where
  | h1 (text : String)
  | h2 (text : String)
  | h3 (text : String)
  | anchor (href : Option String) (text : String)
  | txt (s : String)
deriving Repr, DecidableEq

/-- The parsed document (`soup`): `title` is the string of the `<title>`
element when present, `elems` the body elements in document order. -/
structure Doc where
  title : Option String
  elems : List Elem
deriving Repr, DecidableEq

/-- The text content of one element. -/
def elemText : Elem → String
  | .h1 t => t
  | .h2 t => t
  | .h3 t => t
  | .anchor _ t => t
  | .txt s => s

/-- Whether an element is one of the headings matched by
`soup.find_all(['h1', 'h2', 'h3'])`. -/
def isHeading : Elem → Bool
  | .h1 _ => true
  | .h2 _ => true
  | .h3 _ => true
  | _ => false

/-- The hrefs of the anchors that carry an `href` attribute, in document
order: `[a['href'] for a in ... find_all('a', href=True)]`. -/
def hrefsOf (es : List Elem) : List String :=
  es.filterMap fun e =>
    match e with
    | .anchor (some h) _ => some h
    | _ => none

/-- One record of the `headers` list (app.py lines 82-86): stripped
heading text, tag name, and `find_all_next('a', href=True, limit=3)` —
the hrefs of the first three href-carrying anchors after the heading in
document order. -/
def headingRec (tag text : String) (rest : List Elem) : HeaderRec :=
  { text := pyStrip text, tag := tag, links := (hrefsOf rest).take 3 }

/-- The `headers` list built by the loop of app.py lines 80-86: one
record per `h1`/`h2`/`h3` element, in document order. -/
def extractHeaders : List Elem → List HeaderRec
  | [] => []
  | .h1 t :: rest => headingRec "h1" t rest :: extractHeaders rest
  | .h2 t :: rest => headingRec "h2" t rest :: extractHeaders rest
  | .h3 t :: rest => headingRec "h3" t rest :: extractHeaders rest
  | _ :: rest => extractHeaders rest

/-- Model of `soup.get_text(separator=' ', strip=True)`: the stripped, nonempty
text fragments of the document joined with single spaces. -/
def get_text (d : Doc) : String :=
  String.intercalate " " (((d.elems.map elemText).map pyStrip).filter (fun s => s != ""))

/-- The success dict of `bs4_scraper` (app.py lines 88-93). -/
def bs4_extract (d : Doc) : ResultDict :=
  { title := some (match d.title with | some t => t | none => "No title")
    headers := some (extractHeaders d.elems)
    all_links := some (hrefsOf d.elems)
    text := some (pySlice (get_text d) 1000 ++ "...") }

/-- Outcome of `BeautifulSoup(content, 'html.parser')` together with the
extraction queries: either a parsed document or an exception message
(caught at app.py line 94). -/
inductive ParseOutcome where
  | ok (d : Doc)
  | exn (msg : String)

/-- The body of `bs4_scraper` after content acquisition (app.py lines
73-95): classify the content string by error prefix; otherwise parse
and extract, converting any parse exception into an error dict. -/
def bs4_process (parse : String → ParseOutcome) (content : String) : ResultDict :=
  if isFetchError content then
    { error := some content }
  else
    match parse content with
    | .ok d => bs4_extract d
    | .exn m => { error := some m }

/-- Embedding of `bs4_scraper` (app.py lines 69-95): fetch via `get_page_content`,
then process the content string. -/
def bs4_scraper (parse : String → ParseOutcome) (http : HttpOutcome)
    (sel : SeleniumOutcome) : ResultDict :=
  bs4_process parse (get_page_content http sel).content

/-- Outcome of the browser session of `selenium_scraper` (app.py lines
103-112): the page title, the body element's text and the number of
script elements, or the message of the exception raised anywhere in the
try block. -/
inductive BrowserOutcome where
  | ok (title : String) (bodyText : String) (scripts : Nat)
  | exn (msg : String)

/-- Embedding of `selenium_scraper` (app.py lines 97-117): on success return
`{'title': ..., 'text': body[:1000] + '...', 'scripts': ...}`, on any
exception `{'error': str(e)}`.  The `finally` driver shutdown does not
affect the returned value. -/
def selenium_scraper (b : BrowserOutcome) : ResultDict :=
  match b with
  | .ok t body n =>
      { title := some t
        text := some (pySlice body 1000 ++ "...")
        scripts := some n }
  | .exn m => { error := some m }

/-- Result of evaluating a Python expression: a value or a raised
exception carrying `str(e)`. -/
inductive PyResult (α : Type) where
  | ok (a : α)
  | exn (msg : String)

/-- The names bound at module level in app.py when `scrapy_scraper`
runs: the imports (lines 1-14), `llm`, the function and class
definitions.  `TempSpider` is not among them — its class statement is
only written as text to a temporary file (lines 133-140) and never
imported or executed. -/
def moduleGlobals : List String :=
  ["st", "requests", "BeautifulSoup", "webdriver", "Options", "ChatOpenAI",
   "ChatPromptTemplate", "pd", "json", "CrawlerProcess", "get_project_settings",
   "Spider", "tempfile", "os", "llm", "get_page_content", "selenium_fetch",
   "generate_ai_questions", "bs4_scraper", "selenium_scraper", "CustomSpider",
   "scrapy_scraper"]

/-- Python name resolution: looking up an unbound name raises
`NameError: name '<n>' is not defined`. -/
def lookupName (env : List String) (n : String) : PyResult Unit :=
  if env.contains n then .ok ()
  else .exn ("name \x27" ++ n ++ "\x27 is not defined")

/-- Embedding of `scrapy_scraper` (app.py lines 130-151).  The temp-file write (lines
133-140) only stores source text and is modelled as a no-op on the
result; `process.crawl(TempSpider)` (line 143) first resolves the name
`TempSpider`, which is unbound at module scope, so the try block raises
`NameError` before any crawl runs.  The crawl execution itself is an
external capability, modelled from the spec by the `runCrawl` oracle
returning aggregate run statistics (`crawler.stats.get_stats()`, line
146) or an exception; either way any exception becomes an error dict
(line 148). -/
def scrapy_scraper (runCrawl : String → PyResult (List (String × String)))
    (url : String) : ResultDict :=
  match lookupName moduleGlobals "TempSpider" with
  | .exn m => { error := some m }
  | .ok _ =>
      match runCrawl url with
      | .ok stats => { stats := some stats }
      | .exn m => { error := some m }

/-- A character inside the modelled fragment of the JSON string
escaping of `json.dumps`: ASCII, and either printable or one of newline,
tab, carriage return (which `json.dumps` writes as two-character
escapes).  Control characters needing `\uXXXX` escapes and non-ASCII
characters (escaped because of `ensure_ascii`) are outside the model. -/
def jsonPlainChar (c : Char) : Bool :=
  c.toNat < 128 && (32 ≤ c.toNat || c = '\n' || c = '\t' || c = '\r')

/-- Model of the `json.dumps` escaping of one character (within the modelled
fragment). -/
def jsonEscapeChar (c : Char) : List Char :=
  if c = '"' then ['\\', '"']
  else if c = '\\' then ['\\', '\\']
  else if c = '\n' then ['\\', 'n']
  else if c = '\t' then ['\\', 't']
  else if c = '\r' then ['\\', 'r']
  else [c]

/-- Model of the `json.dumps` escaping of a character sequence. -/
def jsonEscape : List Char → List Char
  | [] => []
  | c :: cs => jsonEscapeChar c ++ jsonEscape cs

/-- The document produced by `json.dumps({'error': msg}, indent=2)`
(the export of app.py lines 217-222 applied to an error dict):
`{`, newline, two-space indent, the quoted key `error`, a colon and
space, the quoted escaped message, newline, `}`. -/
def json_dumps_error (msg : String) : String :=
  ⟨("\x7b\n  \"error\": \"").data ++ jsonEscape msg.data ++ ("\"\n\x7d").data⟩

/-- The export serialization `json_dumps_error` applied to a `ResultDict` that is an error dict
(exactly the `error` key populated), i.e. the exported report of an
ErrorResult. -/
def json_dumps_errorResult (r : ResultDict) : Option String :=
  match r with
  | { error := some m, title := none, headers := none, all_links := none,
      text := none, scripts := none, stats := none } => some (json_dumps_error m)
  | _ => none

/-- JSON unescaping of the character following a backslash. -/
def unescapeChar (c : Char) : Option Char :=
  if c = '"' then some '"'
  else if c = '\\' then some '\\'
  else if c = '/' then some '/'
  else if c = 'n' then some '\n'
  else if c = 't' then some '\t'
  else if c = 'r' then some '\r'
  else if c = 'b' then some (Char.ofNat 8)
  else if c = 'f' then some (Char.ofNat 12)
  else none

/-- JSON whitespace. -/
def isWsChar (c : Char) : Bool :=
  c = ' ' || c = '\n' || c = '\t' || c = '\r'

/-- Drop leading JSON whitespace. -/
def skipWs : List Char → List Char
  | [] => []
  | c :: rest => if isWsChar c then skipWs rest else c :: rest

/-- Parse the remainder of a JSON string literal (the opening quote
already consumed), accumulating decoded characters in reverse. -/
def parseStringAux : List Char → List Char → Option (String × List Char)
  | _, [] => none
  | acc, c :: rest =>
      if c = '"' then some (⟨acc.reverse⟩, rest)
      else if c = '\\' then
        match rest with
        | [] => none
        | e :: rest2 =>
            match unescapeChar e with
            | some c2 => parseStringAux (c2 :: acc) rest2
            | none => none
      else parseStringAux (c :: acc) rest

/-- Parse the members of a JSON object of string values, starting at the
first key; returns the key/value pairs and the input after the closing
brace.  `fuel` bounds the number of members. -/
def parseMembersAux : Nat → List Char → Option (List (String × String) × List Char)
  | 0, _ => none
  | fuel + 1, input =>
      match skipWs input with
      | '"' :: rest =>
          match parseStringAux [] rest with
          | some (key, rest1) =>
              match skipWs rest1 with
              | ':' :: rest2 =>
                  match skipWs rest2 with
                  | '"' :: rest3 =>
                      match parseStringAux [] rest3 with
                      | some (val, rest4) =>
                          match skipWs rest4 with
                          | ',' :: rest5 =>
                              match parseMembersAux fuel rest5 with
                              | some (pairs, rest6) => some ((key, val) :: pairs, rest6)
                              | none => none
                          | '\x7d' :: rest5 => some ([(key, val)], rest5)
                          | _ => none
                      | none => none
                  | _ => none
              | _ => none
          | none => none
      | _ => none

/-- Model of `json.loads` restricted to flat objects of string values:
returns the key/value pairs when the whole input is one such object. -/
def json_loads_obj (s : String) : Option (List (String × String)) :=
  match skipWs s.data with
  | '\x7b' :: rest =>
      match skipWs rest with
      | '\x7d' :: rest1 => if skipWs rest1 = [] then some [] else none
      | rest1 =>
          match parseMembersAux (rest1.length + 1) rest1 with
          | some (pairs, rest2) => if skipWs rest2 = [] then some pairs else none
          | none => none
  | _ => none

/-! ## Helper lemmas -/

theorem string_eq_of_data {a b : String} (h : a.data = b.data) : a = b := by
  cases a
  cases b
  exact congrArg String.mk h

theorem data_error_append (m : String) :
    ("Error: " ++ m).data = "Error:".data ++ (' ' :: m.data) := by
  rw [String.data_append]
  have h : ("Error: ").data = "Error:".data ++ [' '] := by decide
  rw [h, List.append_assoc]
  rfl

theorem data_selenium_append (m : String) :
    ("Selenium Error: " ++ m).data = "Selenium Error:".data ++ (' ' :: m.data) := by
  rw [String.data_append]
  have h : ("Selenium Error: ").data = "Selenium Error:".data ++ [' '] := by decide
  rw [h, List.append_assoc]
  rfl

theorem isFetchError_error (m : String) : isFetchError ("Error: " ++ m) = true := by
  simp [isFetchError, pyStartsWith, data_error_append]

theorem isFetchError_selenium (m : String) :
    isFetchError ("Selenium Error: " ++ m) = true := by
  simp [isFetchError, pyStartsWith, data_selenium_append]

/-! ## Claim theorems -/

/-- C1: for every URL whose direct GET yields HTTP 403,
`get_page_content` invokes the `selenium_fetch` fallback exactly once
and returns that fallback's value — the fallback's page source when the
browser succeeds, the browser-error message `"Selenium Error: " ++ em`
when it fails — and in particular never takes the branch that would
return the raw 403 error string. -/
theorem fetch_403_invokes_selenium_fallback_once (msg : String) (sel : SeleniumOutcome) :
    (get_page_content (.httpError 403 msg) sel).seleniumCalls = 1 ∧
    (get_page_content (.httpError 403 msg) sel).content = selenium_fetch sel ∧
    (∀ s, sel = .success s → (get_page_content (.httpError 403 msg) sel).content = s) ∧
    (∀ em, sel = .failure em →
      (get_page_content (.httpError 403 msg) sel).content = "Selenium Error: " ++ em) := by
  refine ⟨rfl, rfl, ?_, ?_⟩ <;> rintro x rfl <;> rfl

/-- Witness for C1 at a concrete 403 with a failing fallback. -/
theorem fetch_403_invokes_selenium_fallback_once_witness :
    (get_page_content (.httpError 403 "403 Client Error") (.failure "no chrome")).seleniumCalls = 1 ∧
    (get_page_content (.httpError 403 "403 Client Error") (.failure "no chrome")).content =
      "Selenium Error: no chrome" :=
  ⟨(fetch_403_invokes_selenium_fallback_once "403 Client Error" (.failure "no chrome")).1,
   (fetch_403_invokes_selenium_fallback_once "403 Client Error"
      (.failure "no chrome")).2.2.2 "no chrome" rfl⟩

/-- C2: `get_page_content` is a total function of the fetch outcomes
(no exception escapes — every branch of the source returns a string),
and whenever the fetch fails — timeout/DNS (`otherError`), a non-403
HTTP error, or a 403 whose browser fallback also fails — the returned
content is an error-tagged string (`isFetchError`) carrying the
exception message. -/
theorem fetch_failures_error_tagged (http : HttpOutcome) (sel : SeleniumOutcome)
    (m : String) (h : fetchFailureMsg http sel = some m) :
    isFetchError (get_page_content http sel).content = true ∧
    ((get_page_content http sel).content = "Error: " ++ m ∨
     (get_page_content http sel).content = "Selenium Error: " ++ m) := by
  cases http with
  | success b => simp [fetchFailureMsg] at h
  | otherError em =>
      simp only [fetchFailureMsg, Option.some.injEq] at h
      subst h
      exact ⟨isFetchError_error em, Or.inl rfl⟩
  | httpError status em =>
      by_cases h403 : status = 403
      · subst h403
        cases sel with
        | success s => simp [fetchFailureMsg] at h
        | failure fm =>
            simp [fetchFailureMsg] at h
            subst h
            exact ⟨isFetchError_selenium fm, Or.inr rfl⟩
      · simp only [fetchFailureMsg, if_neg h403, Option.some.injEq] at h
        subst h
        have hc : (get_page_content (.httpError status em) sel).content = "Error: " ++ em := by
          simp [get_page_content, h403]
        rw [hc]
        exact ⟨isFetchError_error em, Or.inl rfl⟩

/-- Witness for C2 at a concrete timeout failure. -/
theorem fetch_failures_error_tagged_witness :
    fetchFailureMsg (.otherError "timed out") (.success "unused") = some "timed out" ∧
    isFetchError (get_page_content (.otherError "timed out") (.success "unused")).content = true :=
  ⟨rfl, (fetch_failures_error_tagged (.otherError "timed out") (.success "unused")
          "timed out" rfl).1⟩

/-- C4: whenever the fetched content is error-tagged, `bs4_scraper`
returns an error dict carrying the very same string, for every possible
parser — the parse step is never consulted. -/
theorem static_scraper_propagates_fetch_error (parse : String → ParseOutcome)
    (http : HttpOutcome) (sel : SeleniumOutcome)
    (h : isFetchError (get_page_content http sel).content = true) :
    bs4_scraper parse http sel =
      { error := some (get_page_content http sel).content } := by
  simp [bs4_scraper, bs4_process, h]

/-- Witness for C4 at a concrete timeout failure. -/
theorem static_scraper_propagates_fetch_error_witness :
    isFetchError (get_page_content (.otherError "boom") (.failure "x")).content = true ∧
    bs4_scraper (fun _ => .exn "parser invoked") (.otherError "boom") (.failure "x") =
      { error := some (get_page_content (.otherError "boom") (.failure "x")).content } :=
  ⟨by decide,
   static_scraper_propagates_fetch_error (fun _ => .exn "parser invoked")
     (.otherError "boom") (.failure "x") (by decide)⟩

/-- C5 counterexample: `"Selenium Error: boom"` is a fetch-layer error
string — the fetch layer returns it verbatim when the 403 fallback
fails, and `isFetchError` (the code's own classification) accepts it —
yet `generate_ai_questions` does not skip: it invokes the
language-model chain on that content. -/
theorem advisory_not_skipped_on_selenium_error :
    isFetchError "Selenium Error: boom" = true ∧
    (get_page_content (.httpError 403 "403 Forbidden") (.failure "boom")).content =
      "Selenium Error: boom" ∧
    generate_ai_questions "Selenium Error: boom" =
      .invoked "Selenium Error: boom" := by
  refine ⟨by decide, by decide, by decide⟩

/-- C5 (amended): for every content string beginning with `"Error:"` —
the only error sentinel `generate_ai_questions` recognizes — the
function returns the skip-explanation string echoing the error and does
not invoke the language-model call.  Fetch-layer errors tagged
`"Selenium Error:"` are not recognized and do reach the model. -/
theorem advisory_skips_error_prefixed_content (content : String)
    (h : pyStartsWith content "Error:" = true) :
    generate_ai_questions content =
      .skipped ("Could not generate questions due to: " ++ content) := by
  simp [generate_ai_questions, h]

/-- Witness for the amended C5 at a concrete error string. -/
theorem advisory_skips_error_prefixed_content_witness :
    generate_ai_questions "Error: timeout" =
      .skipped ("Could not generate questions due to: " ++ "Error: timeout") :=
  advisory_skips_error_prefixed_content "Error: timeout" (by decide)

/-- C10: the static scraper classifies fetch output as an error purely
by string prefix: every content string accepted by `isFetchError` is
returned as an error dict no matter what the parser would say; in
particular a page fetched successfully over HTTP whose genuine body
begins with `"Error:"` is reported as an error dict rather than
parsed. -/
theorem static_error_classification_by_string_only :
    (∀ (parse : String → ParseOutcome) (content : String),
        isFetchError content = true →
        bs4_process parse content = { error := some content }) ∧
    (∀ parse : String → ParseOutcome,
        (get_page_content (.success "Error: genuine page body") (.failure "unused")).content
          = "Error: genuine page body" ∧
        bs4_scraper parse (.success "Error: genuine page body") (.failure "unused") =
          { error := some "Error: genuine page body" }) := by
  have hclass : ∀ (parse : String → ParseOutcome) (content : String),
      isFetchError content = true →
      bs4_process parse content = { error := some content } := by
    intro parse content h
    simp [bs4_process, h]
  refine ⟨hclass, fun parse => ⟨rfl, ?_⟩⟩
  exact hclass parse "Error: genuine page body" (by decide)

/-- Witness for C10 at a concrete selenium-error string. -/
theorem static_error_classification_by_string_only_witness :
    bs4_process (fun _ => .exn "parser invoked") "Selenium Error: site down" =
      { error := some "Selenium Error: site down" } :=
  static_error_classification_by_string_only.1 (fun _ => .exn "parser invoked")
    "Selenium Error: site down" (by decide)

/-- C3: every result dict produced by the three strategy scrapers has
exactly one side populated — either the error field (with no payload
fields) or payload fields (with no error field). -/
theorem scraper_results_exclusive (parse : String → ParseOutcome)
    (http : HttpOutcome) (sel : SeleniumOutcome) (b : BrowserOutcome)
    (runCrawl : String → PyResult (List (String × String))) (url : String) :
    exclusiveResult (bs4_scraper parse http sel) ∧
    exclusiveResult (selenium_scraper b) ∧
    exclusiveResult (scrapy_scraper runCrawl url) := by
  refine ⟨?_, ?_, ?_⟩
  · unfold bs4_scraper bs4_process
    split
    · exact Or.inl ⟨rfl, rfl⟩
    · cases parse (get_page_content http sel).content with
      | ok d => exact Or.inr ⟨rfl, rfl⟩
      | exn m => exact Or.inl ⟨rfl, rfl⟩
  · cases b with
    | ok t body n => exact Or.inr ⟨rfl, rfl⟩
    | exn m => exact Or.inl ⟨rfl, rfl⟩
  · exact Or.inl ⟨rfl, rfl⟩

/-- C8 (code bug): `scrapy_scraper` never runs a crawl.  The name
`TempSpider` is unbound at module scope — its class statement is only
written as text to a temporary file and never imported — so for every
URL and every crawl capability the try block raises `NameError` at
`process.crawl(TempSpider)` and the function returns the error dict
instead of per-page fields or aggregate statistics. -/
theorem scrapy_scraper_always_name_error
    (runCrawl : String → PyResult (List (String × String))) (url : String) :
    scrapy_scraper runCrawl url =
      { error := some "name \x27TempSpider\x27 is not defined" } := rfl

theorem extractHeaders_length (es : List Elem) :
    (extractHeaders es).length = es.countP isHeading := by
  induction es with
  | nil => rfl
  | cons e rest ih =>
      cases e <;> simp [extractHeaders, isHeading, List.countP_cons, ih]

theorem headingRec_links_le (tag t : String) (rest : List Elem) :
    (headingRec tag t rest).links.length ≤ 3 := by
  simp [headingRec, List.length_take]

theorem extractHeaders_links_le (es : List Elem) :
    ∀ r ∈ extractHeaders es, r.links.length ≤ 3 := by
  induction es with
  | nil => intro r hr; simp [extractHeaders] at hr
  | cons e rest ih =>
      intro r hr
      cases e with
      | h1 t =>
          rcases (List.mem_cons).mp hr with rfl | hr2
          · exact headingRec_links_le _ _ _
          · exact ih r hr2
      | h2 t =>
          rcases (List.mem_cons).mp hr with rfl | hr2
          · exact headingRec_links_le _ _ _
          · exact ih r hr2
      | h3 t =>
          rcases (List.mem_cons).mp hr with rfl | hr2
          · exact headingRec_links_le _ _ _
          · exact ih r hr2
      | anchor href t => exact ih r hr
      | txt s => exact ih r hr

/-- C6: for every successful static scrape — content not error-tagged
and parsed into a document — the `headers` field holds one record per
`h1`/`h2`/`h3` element of the parsed markup, and every record's link
list has length at most 3. -/
theorem static_heading_count_and_link_bound (parse : String → ParseOutcome)
    (http : HttpOutcome) (sel : SeleniumOutcome) (d : Doc)
    (hok : isFetchError (get_page_content http sel).content = false)
    (hparse : parse (get_page_content http sel).content = .ok d) :
    (bs4_scraper parse http sel).headers = some (extractHeaders d.elems) ∧
    (extractHeaders d.elems).length = d.elems.countP isHeading ∧
    ∀ r ∈ extractHeaders d.elems, r.links.length ≤ 3 := by
  refine ⟨?_, extractHeaders_length d.elems, extractHeaders_links_le d.elems⟩
  simp [bs4_scraper, bs4_process, hok, hparse, bs4_extract]

/-- Witness for C6 on a concrete two-heading document. -/
theorem static_heading_count_and_link_bound_witness :
    (bs4_scraper
        (fun _ => .ok ⟨some "T", [.h1 "A", .anchor (some "/x") "x", .h2 "B"]⟩)
        (.success "<html>") (.failure "unused")).headers =
      some (extractHeaders [.h1 "A", .anchor (some "/x") "x", .h2 "B"]) ∧
    (extractHeaders [.h1 "A", .anchor (some "/x") "x", .h2 "B"]).length = 2 := by
  have h := static_heading_count_and_link_bound
    (fun _ => .ok ⟨some "T", [.h1 "A", .anchor (some "/x") "x", .h2 "B"]⟩)
    (.success "<html>") (.failure "unused")
    ⟨some "T", [.h1 "A", .anchor (some "/x") "x", .h2 "B"]⟩ (by decide) rfl
  exact ⟨h.1, by decide⟩

/-- C7: the truncated text field of a successful static scrape is the
first 1000 code points of the document's visible text followed by the
fixed `"..."` suffix (so at most 1000 characters of content before the
suffix); the same holds of the browser scrape's body text; and at the
edges, a markup without a title yields the `"No title"` placeholder and
an empty visible text yields the suffix alone. -/
theorem truncated_text_bounded_with_edge_cases (d : Doc) (t body : String) (n : Nat) :
    (bs4_extract d).text = some (pySlice (get_text d) 1000 ++ "...") ∧
    (pySlice (get_text d) 1000).length ≤ 1000 ∧
    (get_text d = "" → (bs4_extract d).text = some "...") ∧
    (d.title = none → (bs4_extract d).title = some "No title") ∧
    (selenium_scraper (.ok t body n)).text = some (pySlice body 1000 ++ "...") ∧
    (pySlice body 1000).length ≤ 1000 ∧
    (body = "" → (selenium_scraper (.ok t body n)).text = some "...") := by
  refine ⟨rfl, ?_, ?_, ?_, rfl, ?_, ?_⟩
  · show ((get_text d).data.take 1000).length ≤ 1000
    simp [List.length_take]
  · intro h
    simp [bs4_extract, h]
    rfl
  · intro h
    simp [bs4_extract, h]
  · show (body.data.take 1000).length ≤ 1000
    simp [List.length_take]
  · intro h
    simp [selenium_scraper, h]
    rfl

/-- Witness for C7 on the empty, title-less document and an empty
browser body. -/
theorem truncated_text_bounded_with_edge_cases_witness :
    (bs4_extract ⟨none, []⟩).text = some "..." ∧
    (bs4_extract ⟨none, []⟩).title = some "No title" ∧
    (selenium_scraper (.ok "T" "" 0)).text = some "..." :=
  ⟨(truncated_text_bounded_with_edge_cases ⟨none, []⟩ "T" "" 0).2.2.1 rfl,
   (truncated_text_bounded_with_edge_cases ⟨none, []⟩ "T" "" 0).2.2.2.1 rfl,
   (truncated_text_bounded_with_edge_cases ⟨none, []⟩ "T" "" 0).2.2.2.2.2.2 rfl⟩

theorem parseStringAux_quote (acc rest : List Char) :
    parseStringAux acc ('"' :: rest) = some (⟨acc.reverse⟩, rest) := by
  rw [parseStringAux.eq_def]
  rfl

theorem parseStringAux_escaped (acc rest : List Char) (e c2 : Char)
    (h : unescapeChar e = some c2) :
    parseStringAux acc ('\\' :: e :: rest) = parseStringAux (c2 :: acc) rest := by
  rw [parseStringAux.eq_def]
  simp [h]

theorem parseStringAux_literal (acc rest : List Char) (c : Char)
    (h1 : ¬ c = '"') (h2 : ¬ c = '\\') :
    parseStringAux acc (c :: rest) = parseStringAux (c :: acc) rest := by
  rw [parseStringAux.eq_def]
  simp [h1, h2]

theorem parseStringAux_jsonEscape (cs : List Char) (rest : List Char)
    (h : ∀ c ∈ cs, jsonPlainChar c = true) : ∀ acc : List Char,
    parseStringAux acc (jsonEscape cs ++ '"' :: rest) = some (⟨acc.reverse ++ cs⟩, rest) := by
  induction cs with
  | nil =>
      intro acc
      rw [show jsonEscape [] ++ '"' :: rest = '"' :: rest from rfl, parseStringAux_quote]
      simp
  | cons c cs ih =>
      have hcs : ∀ c2 ∈ cs, jsonPlainChar c2 = true :=
        fun c2 hm => h c2 (List.mem_cons_of_mem c hm)
      intro acc
      have htail : ∀ b : Char, jsonEscapeChar c = b :: [] → ¬ b = '"' → ¬ b = '\\' →
          parseStringAux acc (jsonEscape (c :: cs) ++ '"' :: rest)
            = parseStringAux (b :: acc) (jsonEscape cs ++ '"' :: rest) := by
        intro b hb h1 h2
        rw [show jsonEscape (c :: cs) = jsonEscapeChar c ++ jsonEscape cs from rfl, hb]
        exact parseStringAux_literal acc _ b h1 h2
      have hesc : ∀ e c2 : Char, jsonEscapeChar c = '\\' :: e :: [] → unescapeChar e = some c2 →
          parseStringAux acc (jsonEscape (c :: cs) ++ '"' :: rest)
            = parseStringAux (c2 :: acc) (jsonEscape cs ++ '"' :: rest) := by
        intro e c2 hb he
        rw [show jsonEscape (c :: cs) = jsonEscapeChar c ++ jsonEscape cs from rfl, hb]
        exact parseStringAux_escaped acc _ e c2 he
      by_cases h1 : c = '"'
      · rw [hesc '"' c (by rw [h1]; rfl) (by rw [h1]; rfl), ih hcs]
        simp [h1]
      · by_cases h2 : c = '\\'
        · rw [hesc '\\' c (by rw [h2]; rfl) (by rw [h2]; rfl), ih hcs]
          simp [h2]
        · by_cases h3 : c = '\n'
          · rw [hesc 'n' c (by rw [h3]; rfl) (by rw [h3]; rfl), ih hcs]
            simp [h3]
          · by_cases h4 : c = '\t'
            · rw [hesc 't' c (by rw [h4]; rfl) (by rw [h4]; rfl), ih hcs]
              simp [h4]
            · by_cases h5 : c = '\x0d'
              · rw [hesc 'r' c (by rw [h5]; rfl) (by rw [h5]; rfl), ih hcs]
                simp [h5]
              · have hb : jsonEscapeChar c = c :: [] := by
                  simp [jsonEscapeChar, h1, h2, h3, h4, h5]
                rw [htail c hb h1 h2, ih hcs]
                simp

theorem parseStringAux_error_key (tail : List Char) :
    parseStringAux [] ('e' :: 'r' :: 'r' :: 'o' :: 'r' :: '"' :: tail) = some ("error", tail) := by
  rw [parseStringAux_literal _ _ _ (by decide) (by decide)]
  rw [parseStringAux_literal _ _ _ (by decide) (by decide)]
  rw [parseStringAux_literal _ _ _ (by decide) (by decide)]
  rw [parseStringAux_literal _ _ _ (by decide) (by decide)]
  rw [parseStringAux_literal _ _ _ (by decide) (by decide)]
  rw [parseStringAux_quote]
  rfl

theorem parseMembersAux_doc (fuel : Nat) (v : List Char) (val : String)
    (hv : parseStringAux [] (v ++ '"' :: '\n' :: '\x7d' :: []) = some (val, '\n' :: '\x7d' :: [])) :
    parseMembersAux (fuel + 1)
      ('"' :: 'e' :: 'r' :: 'r' :: 'o' :: 'r' :: '"' :: ':' :: ' ' :: '"' ::
        (v ++ '"' :: '\n' :: '\x7d' :: []))
      = some ([("error", val)], []) := by
  rw [parseMembersAux.eq_def]
  simp [skipWs, isWsChar]
  rw [parseStringAux_error_key]
  simp [skipWs, isWsChar]
  rw [hv]
  rfl

/-- C9: the JSON export of an ErrorResult round-trips — decoding the
document produced by `json.dumps({'error': msg}, indent=2)` yields an
object with exactly one key, `"error"`, whose value is the original
message (for messages within the modelled ASCII fragment of the JSON
string escaping). -/
theorem error_result_json_roundtrip (msg : String)
    (h : ∀ c ∈ msg.data, jsonPlainChar c = true) :
    json_dumps_errorResult { error := some msg } = some (json_dumps_error msg) ∧
    json_loads_obj (json_dumps_error msg) = some [("error", msg)] := by
  refine ⟨rfl, ?_⟩
  obtain ⟨cs⟩ := msg
  have hv : parseStringAux [] (jsonEscape cs ++ '"' :: '\n' :: '\x7d' :: [])
      = some (⟨cs⟩, '\n' :: '\x7d' :: []) := by
    have hh := parseStringAux_jsonEscape cs ('\n' :: '\x7d' :: []) h []
    simpa using hh
  have h1 : json_loads_obj (json_dumps_error ⟨cs⟩)
      = (match parseMembersAux
            (('"' :: 'e' :: 'r' :: 'r' :: 'o' :: 'r' :: '"' :: ':' :: ' ' :: '"' ::
              (jsonEscape cs ++ '"' :: '\n' :: '\x7d' :: [])).length + 1)
            ('"' :: 'e' :: 'r' :: 'r' :: 'o' :: 'r' :: '"' :: ':' :: ' ' :: '"' ::
              (jsonEscape cs ++ '"' :: '\n' :: '\x7d' :: [])) with
         | some (pairs, rest2) => if skipWs rest2 = [] then some pairs else none
         | none => none) := rfl
  rw [h1, parseMembersAux_doc _ (jsonEscape cs) ⟨cs⟩ hv]
  rfl

/-- Witness for C9 at a concrete error message with characters needing
escapes. -/
theorem error_result_json_roundtrip_witness :
    json_loads_obj (json_dumps_error "404 \"Not Found\"\npath: C:\\tmp") =
      some [("error", "404 \"Not Found\"\npath: C:\\tmp")] :=
  (error_result_json_roundtrip "404 \"Not Found\"\npath: C:\\tmp" (by decide)).2

end App
